import Mathlib

/-!
# Verification of the verdant login / bootstrap core

A shallow embedding of the transcript & confirmation layer
(`src/auth/challenge.rs`), the wire data model
(`src/client/auth.rs`, `src/server/auth.rs`, `src/auth/mod.rs`) and the
API bootstrap / orchestrator (`src/api.rs`), together with theorems
settling the specification claims about them.

Modelling conventions:
* Byte strings (`Vec<u8>`, `[u8; 32]`, UTF-8 string payloads) are `List Nat`
  with values `< 256` where it matters.
* SHA-256 is abstract: every construction that uses it (HMAC, HKDF, tags)
  is parameterised by `hash : Bytes → Bytes`; the HMAC/HKDF wiring itself
  is embedded concretely following RFC 2104 / RFC 5869, which is what the
  `hmac` and `hkdf` crates implement.
* The HTTP layer is abstracted by passing the fetched/parsed response
  values as explicit inputs to the functions that consume them.
-/

namespace Verdant

/-- Byte strings: each entry is one byte (`< 256` on real data). -/
abbrev Bytes := List Nat

/-! ## base64 (standard alphabet, with padding)

Embeds the behaviour of the `base64` crate's `STANDARD` engine used by
`Transcript`'s `Display`/`FromStr` impls and by `base64::encode/decode`
in `src/api.rs`: canonical padding required, non-zero trailing bits
rejected. -/

/-- The standard base64 alphabet. -/
def b64Alphabet : List Char :=
  "ABCDEFGHIJKLMNOPQRSTUVWXYZabcdefghijklmnopqrstuvwxyz0123456789+/".data

/-- Character for a sextet value (`n < 64` on real data). -/
def sextetChar (n : Nat) : Char :=
  b64Alphabet.getD n 'A'

/-- base64-encode a byte string, standard alphabet with `=` padding. -/
def b64encode : Bytes → List Char
  | [] => []
  | [a] => [sextetChar (a / 4), sextetChar (a % 4 * 16), '=', '=']
  | [a, b] =>
      [sextetChar (a / 4), sextetChar (a % 4 * 16 + b / 16), sextetChar (b % 16 * 4), '=']
  | a :: b :: c :: rest =>
      sextetChar (a / 4) :: sextetChar (a % 4 * 16 + b / 16) ::
        sextetChar (b % 16 * 4 + c / 64) :: sextetChar (c % 64) :: b64encode rest

/-- Sextet value of an alphabet character; `none` for characters outside
the alphabet (including `=`). -/
def charVal (c : Char) : Option Nat :=
  let i := b64Alphabet.indexOf c
  if i < 64 then some i else none

/-- base64-decode (standard alphabet, canonical padding: `=` only in the
final quantum, trailing bits must be zero). -/
def b64decode : List Char → Option Bytes
  | [] => some []
  | w :: x :: y :: z :: rest =>
      match charVal w, charVal x with
      | some a, some b =>
        if z = '=' then
          if rest = [] then
            if y = '=' then
              if b % 16 = 0 then some [a * 4 + b / 16] else none
            else
              match charVal y with
              | some c =>
                  if c % 4 = 0 then some [a * 4 + b / 16, b % 16 * 16 + c / 4] else none
              | none => none
          else none
        else
          match charVal y, charVal z with
          | some c, some d =>
              match b64decode rest with
              | some tail =>
                  some ((a * 4 + b / 16) :: (b % 16 * 16 + c / 4) :: (c % 4 * 64 + d) :: tail)
              | none => none
          | _, _ => none
      | _, _ => none
  | _ => none

/-! ## bincode (standard configuration) primitives

`Transcript::compute_transcript` serialises the `LoginRequest` with
`bincode::encode_to_vec` (the native `Encode` derive) and the
`LoginResponse` with `bincode::serde::encode_to_vec`, both under
`bincode::config::standard()`: little-endian, variable-size integer
encoding. -/

/-- `k`-byte little-endian encoding of `n`. -/
def natLE : Nat → Nat → Bytes
  | 0, _ => []
  | k + 1, n => n % 256 :: natLE k (n / 256)

/-- bincode standard-config varint encoding of an unsigned integer. -/
def encVarint (n : Nat) : Bytes :=
  if n < 251 then [n]
  else if n < 2 ^ 16 then 251 :: natLE 2 n
  else if n < 2 ^ 32 then 252 :: natLE 4 n
  else 253 :: natLE 8 n

/-- Native `bincode::Encode` encoding of a `String` (UTF-8 bytes):
byte length as varint, then the bytes. -/
def bcStr (s : Bytes) : Bytes :=
  encVarint s.length ++ s

/-- `bincode::serde` encoding of a `String` under the same standard
configuration: byte length as varint, then the bytes. -/
def bcSerdeStr (s : Bytes) : Bytes :=
  encVarint s.length ++ s

/-- `bincode::serde` encoding of a `serialize_bytes` payload:
length as varint, then the bytes. -/
def bcSerdeBytes (s : Bytes) : Bytes :=
  encVarint s.length ++ s

/-! ## Wire data model

`LoginRequest` from `src/client/auth.rs`; `LoginResponse` from
`src/server/auth.rs`; `LoginResult` from `src/auth/mod.rs`. String
fields are modelled by their UTF-8 bytes. -/

/-- A UUID, modelled by its 16 `as_bytes()` bytes (its serde encoding in
a non-human-readable format serialises exactly those bytes). -/
abbrev Uuid := Bytes

/-- An `opaque_ke::CredentialResponse`, opaque to this layer; `enc` is
its `bincode::serde` byte encoding, which is all the transcript ever
consumes. -/
structure CredentialResponse where
  enc : Bytes
  deriving DecidableEq, Repr

/-- An `opaque_ke::CredentialFinalization`, opaque to this layer. -/
structure CredentialFinalization where
  enc : Bytes
  deriving DecidableEq, Repr

/-- `LoginRequest { username: String, credentials: String }`
(derives `bincode::Encode`, fields in declaration order). -/
structure LoginRequest where
  username : Bytes
  credentials : Bytes
  deriving DecidableEq, Repr

/-- `LoginResponse`: `OTP(String)`, `PAKE((Uuid, CredentialResponse))`,
`AccessDenied`. -/
inductive LoginResponse where
  | OTP (s : Bytes)
  | PAKE (id : Uuid) (cred : CredentialResponse)
  | AccessDenied
  deriving DecidableEq, Repr

/-- `LoginResult` from `src/auth/mod.rs`. -/
inductive LoginResult where
  | Success (token : String)
  | PasswordReset
  | Unauthorized
  | UnknownServer (s : String)
  deriving DecidableEq, Repr

/-- Native `bincode::Encode` of `LoginRequest`: the two `String` fields
in declaration order. -/
def encodeLoginRequest (r : LoginRequest) : Bytes :=
  bcStr r.username ++ bcStr r.credentials

/-- `bincode::serde` encoding of `LoginResponse`: the serde variant
index as a varint `u32`, then the variant payload (`PAKE`'s tuple is the
UUID bytes followed by the credential response's encoding). -/
def encodeLoginResponse : LoginResponse → Bytes
  | .OTP s => encVarint 0 ++ bcSerdeStr s
  | .PAKE id cred => encVarint 1 ++ bcSerdeBytes id ++ cred.enc
  | .AccessDenied => encVarint 2

/-! ## Transcript (`src/auth/challenge.rs`) -/

/-- The domain separator bytes `b"LOGIN_TRANSCRIPT_V1"`. -/
def loginTranscriptV1 : Bytes :=
  "LOGIN_TRANSCRIPT_V1".data.map Char.toNat

/-- `Transcript { transcript: Vec<u8> }`. -/
structure Transcript where
  transcript : Bytes
  deriving DecidableEq, Repr

/-- `Transcript::compute_transcript`: the domain separator, then the
native-bincode request bytes, then the serde-bincode response bytes. -/
def Transcript.compute_transcript (request : LoginRequest) (response : LoginResponse) :
    Transcript :=
  ⟨loginTranscriptV1 ++ encodeLoginRequest request ++ encodeLoginResponse response⟩

/-- The `Display` impl: base64 (standard engine) of the transcript bytes. -/
def Transcript.display (t : Transcript) : List Char :=
  b64encode t.transcript

/-- The `FromStr` impl: base64-decode the string into transcript bytes. -/
def Transcript.fromStr (s : List Char) : Option Transcript :=
  (b64decode s).map Transcript.mk

/-! ## HMAC and HKDF over an abstract hash

`hash : Bytes → Bytes` stands for SHA-256 (block size 64, digest 32).
The HMAC construction below is RFC 2104 as implemented by the `hmac`
crate; HKDF is RFC 5869 as implemented by the `hkdf` crate. -/

/-- HMAC key preprocessing: keys longer than the 64-byte block are
hashed first, then the key is zero-padded to the block size. -/
def hmacBlockKey (hash : Bytes → Bytes) (key : Bytes) : Bytes :=
  let k0 := if 64 < key.length then hash key else key
  k0 ++ List.replicate (64 - k0.length) 0

/-- HMAC: `hash((K ⊕ opad) ∥ hash((K ⊕ ipad) ∥ msg))` with
`ipad = 0x36`, `opad = 0x5c`. -/
def hmac (hash : Bytes → Bytes) (key msg : Bytes) : Bytes :=
  let k := hmacBlockKey hash key
  hash ((k.map fun b => b ^^^ 92) ++ hash ((k.map fun b => b ^^^ 54) ++ msg))

/-- HKDF-Extract: `PRK = HMAC(salt, IKM)`. -/
def hkdfExtract (hash : Bytes → Bytes) (salt ikm : Bytes) : Bytes :=
  hmac hash salt ikm

/-- HKDF-Expand for an output length of (at most) one digest:
`T(1) = HMAC(PRK, info ∥ 0x01)`, truncated to 32 bytes. -/
def hkdfExpand32 (hash : Bytes → Bytes) (prk info : Bytes) : Bytes :=
  (hmac hash prk (info ++ [1])).take 32

/-- The `b"confirmation"` info bytes. -/
def confirmationInfo : Bytes := "confirmation".data.map Char.toNat

/-- The `b"client"` label bytes. -/
def clientLabel : Bytes := "client".data.map Char.toNat

/-- The `b"server"` label bytes. -/
def serverLabel : Bytes := "server".data.map Char.toNat

/-- `derive_k_confirm` from `src/auth/challenge.rs`:
`Hkdf::<Sha256>::new(None, k_session)` — a `None` salt is the RFC 5869
default of `HashLen` (32) zero bytes — then `expand(b"confirmation")`
into a 32-byte buffer. -/
def derive_k_confirm (hash : Bytes → Bytes) (k_session : Bytes) : Bytes :=
  hkdfExpand32 hash (hkdfExtract hash (List.replicate 32 0) k_session) confirmationInfo

/-! ### Spec-side confirmation-key / tag definitions

Modelled from the spec's words for the refinement claims:
`K_confirm = HKDF-SHA256(salt = empty, IKM = K_session,
info = "confirmation", L = 32)`;
`client_tag = HMAC-SHA256(K_confirm, T ∥ "client")`;
`server_tag = HMAC-SHA256(K_confirm, T ∥ "server")`. -/

/-- Spec-side `K_confirm`: HKDF with an *empty* salt. -/
def specKConfirm (hash : Bytes → Bytes) (k_session : Bytes) : Bytes :=
  hkdfExpand32 hash (hkdfExtract hash [] k_session) confirmationInfo

/-- Spec-side `client_tag` over transcript bytes `T`. -/
def specClientTag (hash : Bytes → Bytes) (k_session T : Bytes) : Bytes :=
  hmac hash (specKConfirm hash k_session) (T ++ clientLabel)

/-- Spec-side `server_tag` over transcript bytes `T`. -/
def specServerTag (hash : Bytes → Bytes) (k_session T : Bytes) : Bytes :=
  hmac hash (specKConfirm hash k_session) (T ++ serverLabel)

/-! ## LoginUpload / LoginCompletion (`src/auth/challenge.rs`) -/

/-- `LoginUpload { id: Uuid, upload: CredentialFinalization,
client_tag: [u8; 32] }`. -/
structure LoginUpload where
  id : Uuid
  upload : CredentialFinalization
  client_tag : Bytes
  deriving DecidableEq, Repr

/-- `LoginUpload::new`: derive `K_confirm`, compute the transcript, and
tag `transcript ∥ b"client"` with HMAC. -/
def LoginUpload.new (hash : Bytes → Bytes) (id : Uuid) (upload : CredentialFinalization)
    (session_key : Bytes) (request : LoginRequest) (response : LoginResponse) : LoginUpload :=
  let k_confirm := derive_k_confirm hash session_key
  let transcript := Transcript.compute_transcript request response
  let data := transcript.transcript ++ clientLabel
  { id := id, upload := upload, client_tag := hmac hash k_confirm data }

/-- `LoginUpload::verify_transcript`: recompute the expected client tag
and compare with `==`. -/
def LoginUpload.verify_transcript (hash : Bytes → Bytes) (self : LoginUpload)
    (session_key : Bytes) (transcript : Transcript) : Bool :=
  let k_confirm := derive_k_confirm hash session_key
  let data := transcript.transcript ++ clientLabel
  let expected := hmac hash k_confirm data
  expected == self.client_tag

/-- `LoginUpload::verify`: recompute the transcript, then
`verify_transcript`. -/
def LoginUpload.verify (hash : Bytes → Bytes) (self : LoginUpload) (session_key : Bytes)
    (request : LoginRequest) (response : LoginResponse) : Bool :=
  let transcript := Transcript.compute_transcript request response
  self.verify_transcript hash session_key transcript

/-- `LoginCompletion { result: LoginResult, server_tag: [u8; 32] }`. -/
structure LoginCompletion where
  result : LoginResult
  server_tag : Bytes
  deriving DecidableEq, Repr

/-- `LoginCompletion::unauthorized`: `Unauthorized` result with an
all-zero 32-byte tag. -/
def LoginCompletion.unauthorized : LoginCompletion :=
  { result := .Unauthorized, server_tag := List.replicate 32 0 }

/-- `LoginCompletion::new`: tag `transcript ∥ b"server"` under the
derived confirmation key. -/
def LoginCompletion.new (hash : Bytes → Bytes) (result : LoginResult) (session_key : Bytes)
    (transcript : Transcript) : LoginCompletion :=
  let k_confirm := derive_k_confirm hash session_key
  let data := transcript.transcript ++ serverLabel
  { result := result, server_tag := hmac hash k_confirm data }

/-- `LoginCompletion::transcript_verify`: recompute the expected server
tag and compare with `==`. -/
def LoginCompletion.transcript_verify (hash : Bytes → Bytes) (self : LoginCompletion)
    (session_key : Bytes) (transcript : Transcript) : Bool :=
  let k_confirm := derive_k_confirm hash session_key
  let data := transcript.transcript ++ serverLabel
  let expected := hmac hash k_confirm data
  expected == self.server_tag

/-- `LoginCompletion::verify`: recompute the transcript, then
`transcript_verify`. -/
def LoginCompletion.verify (hash : Bytes → Bytes) (self : LoginCompletion)
    (session_key : Bytes) (request : LoginRequest) (response : LoginResponse) : Bool :=
  let transcript := Transcript.compute_transcript request response
  self.transcript_verify hash session_key transcript

/-! ## API bootstrap / client orchestrator (`src/api.rs`)

The HTTP calls are abstracted: the already-fetched/parsed responses are
passed in as explicit inputs. -/

/-- `KeyType` from `src/api.rs`. -/
inductive KeyType where
  | Rsa
  | Ec
  | Ed25519
  | Unknown (s : String)
  | Ed448
  deriving DecidableEq, Repr

/-- `jsonwebtoken::Algorithm` (the constructors this code mentions plus
the other families needed to talk about family membership). -/
inductive Algorithm where
  | RS256
  | RS384
  | RS512
  | ES256
  | ES384
  | EdDSA
  | HS256
  deriving DecidableEq, Repr

/-- `jsonwebtoken::DecodingKey`, tagged by the constructor the code
built it with, carrying the DER bytes. -/
inductive DecodingKey where
  | rsa_der (k : Bytes)
  | ec_der (k : Bytes)
  | ed_der (k : Bytes)
  deriving DecidableEq, Repr

/-- The error constructors of `src/errors.rs` reachable in the embedded
fragment. -/
inductive Error where
  | MissingIpAddr
  | KeyHashMismatch (expected got : List Char)
  | UnknownKeyType (s : String)
  | Base64Error
  deriving DecidableEq, Repr

/-- `detect_key_type`, as the dispatch on the DER algorithm OID (the
DER parse itself is abstracted into the OID string input). -/
def detect_key_type (oid : String) : KeyType :=
  match oid with
  | "1.2.840.113549.1.1.1" => .Rsa
  | "1.3.101.112" => .Ed25519
  | "1.3.101.113" => .Ed448
  | "1.2.840.10045.2.1" => .Ec
  | _ => .Unknown oid

/-- `PubKeyResponse { key_type, pubkey: String }`, `pubkey` being a
base64 string (modelled as its characters). -/
structure PubKeyResponse where
  key_type : KeyType
  pubkey : List Char
  deriving DecidableEq, Repr

/-- `PubKeyResponse::decode_pubkey`: base64-decode the key, then build
the `DecodingKey` for the advertised family; `Unknown`/`Ed448` are
rejected as `UnknownKeyType`. -/
def PubKeyResponse.decode_pubkey (self : PubKeyResponse) : Except Error DecodingKey :=
  match b64decode self.pubkey with
  | none => .error .Base64Error
  | some resp =>
    match self.key_type with
    | .Rsa => .ok (.rsa_der resp)
    | .Ec => .ok (.ec_der resp)
    | .Ed25519 => .ok (.ed_der resp)
    | .Unknown u => .error (.UnknownKeyType u)
    | .Ed448 => .error (.UnknownKeyType "Ed448")

/-- The part of a `keycast::discovery::Discovery` record this code
consumes: the URL list and the published base64 key hash. -/
structure Discovery where
  urls : List String
  pubkey_hash : List Char
  deriving DecidableEq, Repr

/-- `APIClient`; `validation` is the `algorithms` field of the
`jsonwebtoken::Validation` the client carries. -/
structure APIClient where
  url : String
  decoder : DecodingKey
  validation : List Algorithm
  access_token : Option String
  deriving DecidableEq, Repr

/-- `APIClient::from_discovery`, given the parsed `/pubkey` response the
HTTP layer fetched. The source builds a fresh `Sha256` hasher and
finalizes it *without feeding it any data* (the `update` call is
commented out), and the comparison of the resulting digest against
`discovery.pubkey_hash` is itself commented out, so the digest of the
empty input is computed and then discarded. -/
def APIClient.from_discovery (hash : Bytes → Bytes) (discovery : Discovery)
    (response : PubKeyResponse) : Except Error APIClient :=
  match discovery.urls.head? with
  | none => .error .MissingIpAddr
  | some url =>
    let key_hash_base64 := b64encode (hash [])
    -- the `if key_hash_base64 != discovery.pubkey_hash.hash { return Err(KeyHashMismatch) }`
    -- block is commented out in the source: `key_hash_base64` is unused
    match response.decode_pubkey with
    | .error e => .error e
    | .ok key =>
        .ok { url := url, decoder := key, validation := [.RS256, .RS384, .RS512],
              access_token := none }

/-- `APIClient::validate_token`: the AES-GCM branch and the
`jsonwebtoken::decode` call are both commented out in the source; the
function returns the token unchanged. -/
def APIClient.validate_token (self : APIClient) (token : String) (decoder : DecodingKey) :
    Except Error String :=
  .ok token

/-- Outcome of the tail of `APIClient::login`: a returned value, a
returned error, or a process abort. -/
inductive LoginOutcome where
  | ok (r : LoginResult)
  | err (e : Error)
  | panicked (msg : String)
  deriving DecidableEq, Repr

/-- The completion-handling tail of `APIClient::login` (`src/api.rs`
lines 210–223): verify the `LoginCompletion` against the derived key and
the first-round messages — on failure the source calls the abort macro
with `"failed to verify server authenticity"` — then, on `Success`, run
`validate_token` and store the token. Returns the outcome and the
updated client. -/
def APIClient.login_finalize_step (hash : Bytes → Bytes) (self : APIClient) (key : Bytes)
    (login_request : LoginRequest) (initial_resp : LoginResponse)
    (final_resp : LoginCompletion) : LoginOutcome × APIClient :=
  if !(final_resp.verify hash key login_request initial_resp) then
    (.panicked "failed to verify server authenticity", self)
  else
    match final_resp.result with
    | .Success token =>
      match self.validate_token token self.decoder with
      | .ok newtoken => (.ok (.Success newtoken), { self with access_token := some newtoken })
      | .error e => (.err e, self)
    | r => (.ok r, self)

/-- Spec-side statement (modelled from the spec's words) of "the
validator's permitted algorithms match the key family": RSA gets exactly
the three RSASSA variants; EC and Ed25519 get only algorithms of their
own family. -/
def specValidatorMatchesFamily (kt : KeyType) (algs : List Algorithm) : Prop :=
  match kt with
  | .Rsa => algs = [.RS256, .RS384, .RS512]
  | .Ec => algs ≠ [] ∧ ∀ a ∈ algs, a = .ES256 ∨ a = .ES384
  | .Ed25519 => algs ≠ [] ∧ ∀ a ∈ algs, a = .EdDSA
  | _ => True

instance (kt : KeyType) (algs : List Algorithm) :
    Decidable (specValidatorMatchesFamily kt algs) := by
  unfold specValidatorMatchesFamily
  cases kt <;> infer_instance

/-- Whether a bootstrap outcome is the `KeyHashMismatch` error. -/
def isKeyHashMismatch : Except Error APIClient → Bool
  | .error (.KeyHashMismatch _ _) => true
  | _ => false

/-- Constant stand-in digest (32 zero bytes) used to evaluate the
abstract-hash definitions on concrete inputs. -/
def zeroHash : Bytes → Bytes := fun _ => List.replicate 32 0

/-- Identity stand-in digest; keeps distinct inputs distinct, so a
digest/advertised-hash mismatch is concretely computable. -/
def idDigest : Bytes → Bytes := fun bs => bs

/-! ## Helper lemmas -/

/-- `charVal` inverts `sextetChar` on sextet values. -/
theorem charVal_sextetChar : ∀ n < 64, charVal (sextetChar n) = some n := by decide

/-- No sextet value maps to the padding character. -/
theorem sextetChar_ne_pad : ∀ n < 64, sextetChar n ≠ '=' := by decide

/-- base64 decode inverts encode on byte strings. -/
theorem b64decode_b64encode (bs : Bytes) (h : ∀ b ∈ bs, b < 256) :
    b64decode (b64encode bs) = some bs := by
  induction bs using b64encode.induct with
  | case1 => rfl
  | case2 a =>
    have ha : a < 256 := h a (by simp)
    have h1 := charVal_sextetChar (a / 4) (by omega)
    have h2 := charVal_sextetChar (a % 4 * 16) (by omega)
    simp only [b64encode, b64decode, h1, h2]
    have : a % 4 * 16 % 16 = 0 := by omega
    simp [this]
    omega
  | case3 a b =>
    have ha : a < 256 := h a (by simp)
    have hb : b < 256 := h b (by simp)
    have h1 := charVal_sextetChar (a / 4) (by omega)
    have h2 := charVal_sextetChar (a % 4 * 16 + b / 16) (by omega)
    have h3 := charVal_sextetChar (b % 16 * 4) (by omega)
    have hne : sextetChar (b % 16 * 4) ≠ '=' := sextetChar_ne_pad _ (by omega)
    simp only [b64encode, b64decode, h1, h2, h3]
    rw [if_pos trivial, if_pos trivial, if_neg hne]
    have h4 : b % 16 * 4 % 4 = 0 := by omega
    have e1 : a / 4 * 4 + (a % 4 * 16 + b / 16) / 16 = a := by omega
    have e2 : (a % 4 * 16 + b / 16) % 16 * 16 + b % 16 * 4 / 4 = b := by omega
    simp only [h4, if_pos rfl, e1, e2]
    rfl
  | case4 a b c rest ih =>
    have ha : a < 256 := h a (by simp)
    have hb : b < 256 := h b (by simp)
    have hc : c < 256 := h c (by simp)
    have h1 := charVal_sextetChar (a / 4) (by omega)
    have h2 := charVal_sextetChar (a % 4 * 16 + b / 16) (by omega)
    have h3 := charVal_sextetChar (b % 16 * 4 + c / 64) (by omega)
    have h4 := charVal_sextetChar (c % 64) (by omega)
    have hne : sextetChar (c % 64) ≠ '=' := sextetChar_ne_pad _ (by omega)
    have ih' := ih (fun x hx => h x (by simp [hx]))
    have f1 : a / 4 * 4 + (a % 4 * 16 + b / 16) / 16 = a := by omega
    have f2 : (a % 4 * 16 + b / 16) % 16 * 16 + (b % 16 * 4 + c / 64) / 4 = b := by omega
    have f3 : (b % 16 * 4 + c / 64) % 4 * 64 + c % 64 = c := by omega
    simp only [b64encode, b64decode, h1, h2, h3, h4, ih']
    rw [if_neg hne]
    simp only [f1, f2, f3]

/-- An empty HMAC key and a 32-zero-byte HMAC key pad to the same
64-zero-byte block key. -/
theorem hmacBlockKey_nil_eq_zeros32 (hash : Bytes → Bytes) :
    hmacBlockKey hash [] = hmacBlockKey hash (List.replicate 32 0) := by
  show ([] : Bytes) ++ List.replicate (64 - ([] : Bytes).length) 0
      = List.replicate 32 0 ++ List.replicate (64 - (List.replicate (32 : Nat) (0 : Nat)).length) 0
  simp [← List.replicate_add]

/-- HMAC with the empty key agrees with HMAC keyed by 32 zero bytes:
the RFC 5869 "empty salt" and the `hkdf` crate's `None` salt coincide. -/
theorem hmac_nil_key_eq_zeros32 (hash : Bytes → Bytes) (msg : Bytes) :
    hmac hash [] msg = hmac hash (List.replicate 32 0) msg := by
  simp only [hmac, hmacBlockKey_nil_eq_zeros32]

/-- Bytes `==` is `Eq`, read right-to-left. -/
theorem beqBytesRev (e t : Bytes) : (e == t) = true ↔ t = e := by
  rw [beq_iff_eq]
  exact eq_comm

/-! ## Claim theorems -/

/-- C4: `Transcript::compute_transcript(req, resp)` is exactly the
19-byte ASCII literal `LOGIN_TRANSCRIPT_V1`, then the deterministic
bincode serialization of the request, then that of the response, and the
string codec used by the two serialization paths is the same. -/
theorem C4_transcript_structure :
    (∀ (request : LoginRequest) (response : LoginResponse),
        (Transcript.compute_transcript request response).transcript
          = loginTranscriptV1 ++ encodeLoginRequest request ++ encodeLoginResponse response)
    ∧ loginTranscriptV1
        = [76, 79, 71, 73, 78, 95, 84, 82, 65, 78, 83, 67, 82, 73, 80, 84, 95, 86, 49]
    ∧ loginTranscriptV1.length = 19
    ∧ (∀ s : Bytes, bcStr s = bcSerdeStr s) :=
  ⟨fun _ _ => rfl, by decide, by decide, fun _ => rfl⟩

/-- C7: `Transcript::compute_transcript` is deterministic, and the
base64 `Display` form of a transcript parses back (`FromStr`) to an
equal transcript. -/
theorem C7_transcript_determinism_roundtrip :
    (∀ (req₁ req₂ : LoginRequest) (resp₁ resp₂ : LoginResponse), req₁ = req₂ → resp₁ = resp₂ →
        Transcript.compute_transcript req₁ resp₁ = Transcript.compute_transcript req₂ resp₂)
    ∧ (∀ t : Transcript, (∀ b ∈ t.transcript, b < 256) →
        Transcript.fromStr (Transcript.display t) = some t) := by
  constructor
  · intro req₁ req₂ resp₁ resp₂ h1 h2
    rw [h1, h2]
  · intro t h
    simp [Transcript.fromStr, Transcript.display, b64decode_b64encode _ h]

/-- Witness for C7 at a concrete request/response pair and transcript. -/
theorem C7_witness :
    Transcript.compute_transcript ⟨[1], [2]⟩ .AccessDenied
        = Transcript.compute_transcript ⟨[1], [2]⟩ .AccessDenied
    ∧ Transcript.fromStr (Transcript.display ⟨[0, 100, 255]⟩) = some ⟨[0, 100, 255]⟩ :=
  ⟨C7_transcript_determinism_roundtrip.1 _ _ _ _ rfl rfl,
   C7_transcript_determinism_roundtrip.2 ⟨[0, 100, 255]⟩ (by decide)⟩

/-- C10: `LoginCompletion::unauthorized()` carries the `Unauthorized`
result and an all-zero 32-byte `server_tag`, so verifying it under any
session key succeeds exactly when the recomputed transcript HMAC equals
32 zero bytes. -/
theorem C10_unauthorized_completion :
    LoginCompletion.unauthorized.result = LoginResult.Unauthorized
    ∧ LoginCompletion.unauthorized.server_tag = List.replicate 32 0
    ∧ ∀ (hash : Bytes → Bytes) (session_key : Bytes) (t : Transcript),
        LoginCompletion.unauthorized.transcript_verify hash session_key t
          = (hmac hash (derive_k_confirm hash session_key) (t.transcript ++ serverLabel)
              == List.replicate 32 0) :=
  ⟨rfl, rfl, fun _ _ _ => rfl⟩

/-- C6: `LoginUpload::verify` succeeds exactly when the upload's tag is
the one `LoginUpload::new` produces from the same session key, request
and response; likewise `LoginCompletion::verify` and
`LoginCompletion::new` over the transcript of the same request and
response. -/
theorem C6_tag_verification_symmetry :
    ∀ (hash : Bytes → Bytes) (session_key : Bytes) (request : LoginRequest)
      (response : LoginResponse) (u : LoginUpload) (comp : LoginCompletion),
      (u.verify hash session_key request response = true
        ↔ u.client_tag
            = (LoginUpload.new hash u.id u.upload session_key request response).client_tag)
      ∧ (comp.verify hash session_key request response = true
        ↔ comp.server_tag
            = (LoginCompletion.new hash comp.result session_key
                (Transcript.compute_transcript request response)).server_tag) := by
  intro hash session_key request response u comp
  exact ⟨beqBytesRev _ _, beqBytesRev _ _⟩


/-- C5: the confirmation key and both confirmation tags are computed as
the spec prescribes: `K_confirm` is HKDF-SHA256 with empty salt, IKM the
session key, info `"confirmation"` and length 32 (the source's `None`
salt coincides with the empty salt), and the tags are HMAC-SHA256 of the
transcript followed by the `"client"` / `"server"` label, 32 bytes each. -/
theorem C5_confirmation_tag_construction (hash : Bytes → Bytes)
    (hlen : ∀ bs, (hash bs).length = 32) :
    ∀ (session_key : Bytes) (request : LoginRequest) (response : LoginResponse)
      (id : Uuid) (upload : CredentialFinalization) (result : LoginResult),
      derive_k_confirm hash session_key = specKConfirm hash session_key
      ∧ (LoginUpload.new hash id upload session_key request response).client_tag
          = specClientTag hash session_key
              (Transcript.compute_transcript request response).transcript
      ∧ (LoginCompletion.new hash result session_key
            (Transcript.compute_transcript request response)).server_tag
          = specServerTag hash session_key
              (Transcript.compute_transcript request response).transcript
      ∧ (LoginUpload.new hash id upload session_key request response).client_tag.length = 32
      ∧ (LoginCompletion.new hash result session_key
            (Transcript.compute_transcript request response)).server_tag.length = 32 := by
  intro session_key request response id upload result
  have hk : derive_k_confirm hash session_key = specKConfirm hash session_key := by
    unfold derive_k_confirm specKConfirm hkdfExtract
    rw [hmac_nil_key_eq_zeros32]
  refine ⟨hk, ?_, ?_, hlen _, hlen _⟩
  · show hmac hash (derive_k_confirm hash session_key) _ = _
    rw [hk]
    rfl
  · show hmac hash (derive_k_confirm hash session_key) _ = _
    rw [hk]
    rfl

/-- Witness for C5 at a concrete session key, messages and hash. -/
theorem C5_witness :
    derive_k_confirm zeroHash [9] = specKConfirm zeroHash [9]
    ∧ (LoginUpload.new zeroHash [] ⟨[]⟩ [9] ⟨[], []⟩ .AccessDenied).client_tag
        = specClientTag zeroHash [9]
            (Transcript.compute_transcript ⟨[], []⟩ .AccessDenied).transcript
    ∧ (LoginCompletion.new zeroHash .PasswordReset [9]
          (Transcript.compute_transcript ⟨[], []⟩ .AccessDenied)).server_tag
        = specServerTag zeroHash [9]
            (Transcript.compute_transcript ⟨[], []⟩ .AccessDenied).transcript
    ∧ (LoginUpload.new zeroHash [] ⟨[]⟩ [9] ⟨[], []⟩ .AccessDenied).client_tag.length = 32
    ∧ (LoginCompletion.new zeroHash .PasswordReset [9]
          (Transcript.compute_transcript ⟨[], []⟩ .AccessDenied)).server_tag.length = 32 :=
  C5_confirmation_tag_construction zeroHash (fun _ => rfl) [9] ⟨[], []⟩ .AccessDenied []
    ⟨[]⟩ .PasswordReset

/-- C1: the source's bootstrap computes its digest over the empty input
(the hasher is finalized unfed) and the comparison against the discovery
hash is commented out: with an injective stand-in digest whose digest of
the fetched key bytes differs from the advertised hash, `from_discovery`
still succeeds, and no input at all can make it return
`KeyHashMismatch`. -/
theorem C1_keyhash_gate_missing :
    (b64encode (idDigest [1, 2, 3]) == "XXXX".data) = false
    ∧ APIClient.from_discovery idDigest ⟨["http://a"], "XXXX".data⟩
        ⟨.Rsa, b64encode [1, 2, 3]⟩
      = .ok ⟨"http://a", .rsa_der [1, 2, 3], [.RS256, .RS384, .RS512], none⟩
    ∧ ∀ (hash : Bytes → Bytes) (d : Discovery) (r : PubKeyResponse),
        isKeyHashMismatch (APIClient.from_discovery hash d r) = false := by
  refine ⟨by decide, rfl, ?_⟩
  intro hash d r
  rcases hh : d.urls.head? with _ | url <;>
    rcases hb : b64decode r.pubkey with _ | bs <;>
      rcases hk : r.key_type <;>
        simp [APIClient.from_discovery, PubKeyResponse.decode_pubkey, isKeyHashMismatch,
          hh, hb, hk]

/-- C2: on a non-verifying `server_tag` the source aborts the process
with `"failed to verify server authenticity"` instead of returning an
authenticity-failure error; the token field is left untouched. -/
theorem C2_server_tag_mismatch_aborts :
    LoginCompletion.verify zeroHash ⟨.Unauthorized, List.replicate 32 1⟩ [] ⟨[], []⟩
        .AccessDenied = false
    ∧ APIClient.login_finalize_step zeroHash
        ⟨"u", .rsa_der [], [.RS256, .RS384, .RS512], none⟩ [] ⟨[], []⟩ .AccessDenied
        ⟨.Unauthorized, List.replicate 32 1⟩
      = (.panicked "failed to verify server authenticity",
          ⟨"u", .rsa_der [], [.RS256, .RS384, .RS512], none⟩)
    ∧ (⟨"u", .rsa_der [], [.RS256, .RS384, .RS512], none⟩ : APIClient).access_token = none := by
  refine ⟨by decide, by decide, rfl⟩

/-- C3: `validate_token` returns any token unchanged (the signature and
claim checks are commented out), so a string that is not even a JWT is
accepted, stored in `access_token` and returned as `Success`. -/
theorem C3_token_stored_without_validation :
    APIClient.validate_token ⟨"u", .rsa_der [], [.RS256, .RS384, .RS512], none⟩
        "***not-a-jwt***" (.rsa_der []) = .ok "***not-a-jwt***"
    ∧ APIClient.login_finalize_step zeroHash
        ⟨"u", .rsa_der [], [.RS256, .RS384, .RS512], none⟩ [] ⟨[], []⟩ .AccessDenied
        ⟨.Success "***not-a-jwt***", List.replicate 32 0⟩
      = (.ok (.Success "***not-a-jwt***"),
          ⟨"u", .rsa_der [], [.RS256, .RS384, .RS512], some "***not-a-jwt***"⟩) := by
  refine ⟨rfl, by decide⟩

/-- Counterexample for C8: bootstrapping against an EC public key
succeeds and leaves the RSA algorithm list in the validator, which does
not match the EC family. -/
theorem C8_counterexample :
    APIClient.from_discovery zeroHash ⟨["http://a"], []⟩ ⟨.Ec, b64encode [4, 5, 6]⟩
      = .ok ⟨"http://a", .ec_der [4, 5, 6], [.RS256, .RS384, .RS512], none⟩
    ∧ ¬ specValidatorMatchesFamily .Ec [.RS256, .RS384, .RS512] :=
  ⟨rfl, by decide⟩

/-- C8 (amended): every successfully bootstrapped client's validator
carries exactly the three RSASSA algorithms, regardless of key family. -/
theorem C8_amended_always_rsa_algorithms (hash : Bytes → Bytes) (discovery : Discovery)
    (response : PubKeyResponse) (c : APIClient)
    (h : APIClient.from_discovery hash discovery response = .ok c) :
    c.validation = [.RS256, .RS384, .RS512] := by
  unfold APIClient.from_discovery at h
  rcases hh : discovery.urls.head? with _ | url <;> rw [hh] at h
  · exact absurd h (by simp)
  · simp only at h
    rcases hk : response.decode_pubkey with e | key <;> rw [hk] at h
    · exact absurd h (by simp)
    · cases h
      rfl

/-- Witness for the amended C8 at a concrete RSA bootstrap. -/
theorem C8_witness :
    (⟨"http://a", .rsa_der [7], [.RS256, .RS384, .RS512], none⟩ : APIClient).validation
      = [.RS256, .RS384, .RS512] :=
  C8_amended_always_rsa_algorithms zeroHash ⟨["http://a"], []⟩ ⟨.Rsa, b64encode [7]⟩
    ⟨"http://a", .rsa_der [7], [.RS256, .RS384, .RS512], none⟩ rfl

end Verdant
